import Mathlib

/-!
Shallow embedding of the fitness tracker module (src/homework.py).

Python floats are modelled as exact rationals.  Python raises
ZeroDivisionError when a float is divided by zero, so division is modelled
by the fallible operation pydiv; every method that divides is Except-valued.
Python exceptions are modelled by the PyError type.
-/

/-- The kinds of exception the program can raise: ValueError from the
dispatcher, TypeError from calling a constructor with the wrong number of
positional arguments, NotImplementedError from the base-class calorie
method, and ZeroDivisionError from float division by zero. -/
inductive PyError where
  | valueError (msg : String)
  | typeError
  | notImplementedError (msg : String)
  | zeroDivisionError
deriving DecidableEq, Repr

/-- Python float division: raises ZeroDivisionError when the divisor is
zero, otherwise returns the exact quotient. -/
def pydiv (a b : ℚ) : Except PyError ℚ :=
  if b = 0 then .error .zeroDivisionError else .ok (a / b)

/-- The dataclass InfoMessage of homework.py: one computed workout summary. -/
structure InfoMessage where
  training_type : String
  duration : ℚ
  distance : ℚ
  speed : ℚ
  calories : ℚ
deriving DecidableEq, Repr

/-- The three fractional digits printed by the format spec .3f for a
fraction numerator n with n < 1000 (most significant digit first). -/
def frac3 (n : ℕ) : String :=
  String.mk [Nat.digitChar (n / 100 % 10), Nat.digitChar (n / 10 % 10), Nat.digitChar (n % 10)]

/-- Fixed-point rendering with exactly three decimals, modelling the Python
format spec .3f on our rational model of floats: round to the nearest
thousandth, then print an optional sign, the integer part, a dot, and
exactly three fractional digits. -/
def format3 (x : ℚ) : String :=
  let n : ℤ := round (x * 1000)
  (if n < 0 then "-" else "") ++ toString (n.natAbs / 1000) ++ "." ++ frac3 (n.natAbs % 1000)

namespace InfoMessage

/-- InfoMessage.get_message: the formatted training report string. -/
def get_message (m : InfoMessage) : String :=
  "Тип тренировки: " ++ m.training_type ++ "; " ++
  "Длительность: " ++ format3 m.duration ++ " ч.; " ++
  "Дистанция: " ++ format3 m.distance ++ " км; " ++
  "Ср. скорость: " ++ format3 m.speed ++ " км/ч; " ++
  "Потрачено ккал: " ++ format3 m.calories ++ "."

end InfoMessage

/-- The class hierarchy of homework.py as a closed inductive type: the base
class Training (which Python allows to be instantiated directly) and its
three subclasses Running, SportsWalking and Swimming, each carrying its
constructor fields. -/
inductive Training where
  | base (action duration weight : ℚ)
  | running (action duration weight : ℚ)
  | sportsWalking (action duration weight height : ℚ)
  | swimming (action duration weight length_pool count_pool : ℚ)
deriving DecidableEq, Repr

namespace Training

/-- The inherited field self.action. -/
def action : Training → ℚ
  | base a _ _ => a
  | running a _ _ => a
  | sportsWalking a _ _ _ => a
  | swimming a _ _ _ _ => a

/-- The inherited field self.duration. -/
def duration : Training → ℚ
  | base _ d _ => d
  | running _ d _ => d
  | sportsWalking _ d _ _ => d
  | swimming _ d _ _ _ => d

/-- The inherited field self.weight. -/
def weight : Training → ℚ
  | base _ _ w => w
  | running _ _ w => w
  | sportsWalking _ _ w _ => w
  | swimming _ _ w _ _ => w

/-- The runtime class name self.__class__.__name__. -/
def class_name : Training → String
  | base .. => "Training"
  | running .. => "Running"
  | sportsWalking .. => "SportsWalking"
  | swimming .. => "Swimming"

/-- The class constant LEN_STEP: 0.65 on Training, overridden to 1.38 on
Swimming. -/
def LEN_STEP : Training → ℚ
  | swimming .. => 1.38
  | _ => 0.65

/-- The class constant M_IN_KM = 1000.0. -/
def M_IN_KM : ℚ := 1000

/-- The class constant H_IN_M = 60.0. -/
def H_IN_M : ℚ := 60

/-- Running.CALORIES_MEAN_SPEED_MULTIPLIER = 18.0. -/
def CALORIES_MEAN_SPEED_MULTIPLIER : ℚ := 18

/-- Running.CALORIES_MEAN_SPEED_SHIFT = 1.79. -/
def CALORIES_MEAN_SPEED_SHIFT : ℚ := 1.79

/-- SportsWalking.KMH_IN_MS = 0.278. -/
def KMH_IN_MS : ℚ := 0.278

/-- SportsWalking.WEIGHT_MULTIPLIER = 0.035. -/
def WEIGHT_MULTIPLIER : ℚ := 0.035

/-- SportsWalking.AVER_SPEED_CALORIE = 0.029. -/
def AVER_SPEED_CALORIE : ℚ := 0.029

/-- SportsWalking.SM_IN_M = 100.0. -/
def SM_IN_M : ℚ := 100

/-- Swimming.MEAN_SPEED_SHIFT = 1.1. -/
def MEAN_SPEED_SHIFT : ℚ := 1.1

/-- Swimming.SPEED_MULTIPLIER = 2.0. -/
def SPEED_MULTIPLIER : ℚ := 2

/-- Training.get_distance: action * LEN_STEP / M_IN_KM, inherited by every
subclass (only LEN_STEP varies). -/
def get_distance (t : Training) : Except PyError ℚ :=
  pydiv (t.action * t.LEN_STEP) M_IN_KM

/-- get_mean_speed: the base formula get_distance() / duration, overridden
by Swimming to length_pool * count_pool / M_IN_KM / duration. -/
def get_mean_speed (t : Training) : Except PyError ℚ :=
  match t with
  | swimming _ d _ lp cp => do
      let x ← pydiv (lp * cp) M_IN_KM
      pydiv x d
  | _ => do
      let dist ← t.get_distance
      pydiv dist t.duration

/-- get_spent_calories: raises NotImplementedError on the base class and is
overridden by each of the three subclasses with its own formula. -/
def get_spent_calories (t : Training) : Except PyError ℚ :=
  match t with
  | base .. =>
      .error (.notImplementedError
        ("Метод обязательный_метод должен быть реализован в подклассе " ++ t.class_name))
  | running _ d w => do
      let ms ← t.get_mean_speed
      let x ← pydiv ((CALORIES_MEAN_SPEED_MULTIPLIER * ms + CALORIES_MEAN_SPEED_SHIFT) * w) M_IN_KM
      pure (x * d * H_IN_M)
  | sportsWalking _ d w h => do
      let ms ← t.get_mean_speed
      let mean_speed_ms := ms * KMH_IN_MS
      let hm ← pydiv h SM_IN_M
      let y ← pydiv (mean_speed_ms ^ 2) hm
      pure ((WEIGHT_MULTIPLIER * w + y * AVER_SPEED_CALORIE * w) * d * H_IN_M)
  | swimming _ d w _ _ => do
      let ms ← t.get_mean_speed
      pure ((ms + MEAN_SPEED_SHIFT) * SPEED_MULTIPLIER * w * d)

/-- Training.show_training_info: build the InfoMessage from the class name,
the duration, and the three computed quantities (in source order). -/
def show_training_info (t : Training) : Except PyError InfoMessage := do
  let dist ← t.get_distance
  let sp ← t.get_mean_speed
  let cal ← t.get_spent_calories
  pure { training_type := t.class_name, duration := t.duration,
         distance := dist, speed := sp, calories := cal }

end Training

/-- A value of the dict training_types in read_package: one of the three
class objects. -/
inductive TrainingClass where
  | Running
  | SportsWalking
  | Swimming
deriving DecidableEq, Repr

/-- Calling a class object with a list of positional arguments, as
training_class(*data) does: the constructor succeeds exactly when the
argument count matches its parameter count, and otherwise Python raises
TypeError. -/
def construct : TrainingClass → List ℚ → Except PyError Training
  | .Running, [a, d, w] => .ok (.running a d w)
  | .SportsWalking, [a, d, w, h] => .ok (.sportsWalking a d w h)
  | .Swimming, [a, d, w, lp, cp] => .ok (.swimming a d w lp cp)
  | _, _ => .error .typeError

/-- The dict training_types of read_package, in its insertion order. -/
def training_types : List (String × TrainingClass) :=
  [("RUN", .Running), ("SWM", .Swimming), ("WLK", .SportsWalking)]

/-- read_package: look the workout code up in training_types; if absent,
raise ValueError with a message naming the code and joining the known codes
with a comma; otherwise construct the class from the data positionally. -/
def read_package (workout_type : String) (data : List ℚ) : Except PyError Training :=
  match training_types.lookup workout_type with
  | none =>
      .error (.valueError
        ("Тренировки вида " ++ workout_type ++ " не найдено. Список тренировок: "
          ++ String.intercalate ", " (training_types.map Prod.fst) ++ "."))
  | some c => construct c data

/-! ### Helper lemmas for the Except monad -/

@[simp] theorem ok_bind {α β : Type} (a : α) (f : α → Except PyError β) :
    (Except.ok a >>= f) = f a := rfl

@[simp] theorem error_bind {α β : Type} (e : PyError) (f : α → Except PyError β) :
    ((Except.error e : Except PyError α) >>= f) = .error e := rfl

@[simp] theorem pure_eq_ok {α : Type} (a : α) :
    (pure a : Except PyError α) = .ok a := rfl

/-- construct never raises ValueError: its only failure mode is TypeError. -/
theorem construct_no_valueError (c : TrainingClass) (data : List ℚ) (msg : String) :
    construct c data ≠ .error (.valueError msg) := by
  unfold construct
  split <;> simp

/-- The function Nat.digitChar applied to a residue mod 10 is a decimal digit. -/
theorem digitChar_isDigit (k : ℕ) : (Nat.digitChar (k % 10)).isDigit := by
  have h : k % 10 < 10 := Nat.mod_lt _ (by norm_num)
  have hall : ∀ m, m < 10 → (Nat.digitChar m).isDigit = true := by decide
  exact hall _ h

/-! ### Claim theorems -/

/-- C5: get_distance returns exactly action * 0.65 / 1000 for Running and
SportsWalking, and exactly action * 1.38 / 1000 for Swimming. -/
theorem C5_get_distance (a d w h lp cp : ℚ) :
    Training.get_distance (.running a d w) = .ok (a * 0.65 / 1000) ∧
    Training.get_distance (.sportsWalking a d w h) = .ok (a * 0.65 / 1000) ∧
    Training.get_distance (.swimming a d w lp cp) = .ok (a * 1.38 / 1000) := by
  refine ⟨?_, ?_, ?_⟩ <;>
    norm_num [Training.get_distance, Training.LEN_STEP, Training.M_IN_KM, Training.action,
      pydiv]

/-- C2: for every Running calculator with nonzero duration (the data-model
invariant), get_spent_calories returns exactly
(18.0 * meanSpeed + 1.79) * weight / 1000 * duration * 60, where meanSpeed
is get_mean_speed() = (action * 0.65 / 1000) / duration. -/
theorem C2_running_spent_calories (a d w : ℚ) (hd : d ≠ 0) :
    Training.get_mean_speed (.running a d w) = .ok (a * 0.65 / 1000 / d) ∧
    Training.get_spent_calories (.running a d w) =
      .ok ((18 * (a * 0.65 / 1000 / d) + 1.79) * w / 1000 * d * 60) := by
  constructor <;>
    norm_num [Training.get_mean_speed, Training.get_spent_calories, Training.get_distance,
      Training.LEN_STEP, Training.M_IN_KM, Training.H_IN_M, Training.action, Training.duration,
      Training.CALORIES_MEAN_SPEED_MULTIPLIER, Training.CALORIES_MEAN_SPEED_SHIFT,
      pydiv, hd]

theorem C2_running_spent_calories_witness :
    Training.get_spent_calories (.running 15000 1 75) =
      .ok ((18 * (15000 * 0.65 / 1000 / 1) + 1.79) * 75 / 1000 * 1 * 60) :=
  (C2_running_spent_calories 15000 1 75 (by norm_num)).2

/-- C3: for every SportsWalking calculator with nonzero height and nonzero
duration (the data-model invariant), get_spent_calories returns exactly
(0.035 * weight + ((meanSpeed * 0.278)^2 / (height / 100)) * 0.029 * weight)
* duration * 60, where meanSpeed is get_mean_speed(). -/
theorem C3_walking_spent_calories (a d w h : ℚ) (hd : d ≠ 0) (hh : h ≠ 0) :
    ∃ ms, Training.get_mean_speed (.sportsWalking a d w h) = .ok ms ∧
      Training.get_spent_calories (.sportsWalking a d w h) =
        .ok ((0.035 * w + ((ms * 0.278) ^ 2 / (h / 100)) * 0.029 * w) * d * 60) := by
  refine ⟨a * 0.65 / 1000 / d, ?_, ?_⟩ <;>
    norm_num [Training.get_mean_speed, Training.get_spent_calories, Training.get_distance,
      Training.LEN_STEP, Training.M_IN_KM, Training.H_IN_M, Training.SM_IN_M,
      Training.action, Training.duration, Training.KMH_IN_MS, Training.WEIGHT_MULTIPLIER,
      Training.AVER_SPEED_CALORIE, pydiv, hd, hh]

theorem C3_walking_spent_calories_witness :
    ∃ ms, Training.get_mean_speed (.sportsWalking 9000 1 75 180) = .ok ms ∧
      Training.get_spent_calories (.sportsWalking 9000 1 75 180) =
        .ok ((0.035 * 75 + ((ms * 0.278) ^ 2 / (180 / 100)) * 0.029 * 75) * 1 * 60) :=
  C3_walking_spent_calories 9000 1 75 180 (by norm_num) (by norm_num)

/-- C4: for every Swimming calculator with nonzero duration (the data-model
invariant), get_mean_speed returns exactly length_pool * count_pool / 1000 /
duration, this value does not depend on action, and get_distance still
equals action * 1.38 / 1000. -/
theorem C4_swimming_mean_speed (a a2 d w lp cp : ℚ) (hd : d ≠ 0) :
    Training.get_mean_speed (.swimming a d w lp cp) = .ok (lp * cp / 1000 / d) ∧
    Training.get_mean_speed (.swimming a2 d w lp cp) =
      Training.get_mean_speed (.swimming a d w lp cp) ∧
    Training.get_distance (.swimming a d w lp cp) = .ok (a * 1.38 / 1000) := by
  refine ⟨?_, ?_, ?_⟩ <;>
    norm_num [Training.get_mean_speed, Training.get_distance, Training.LEN_STEP,
      Training.M_IN_KM, Training.action, Training.duration, pydiv, hd]

theorem C4_swimming_mean_speed_witness :
    Training.get_mean_speed (.swimming 720 1 80 25 40) = .ok (25 * 40 / 1000 / 1) ∧
    Training.get_mean_speed (.swimming 999 1 80 25 40) =
      Training.get_mean_speed (.swimming 720 1 80 25 40) ∧
    Training.get_distance (.swimming 720 1 80 25 40) = .ok (720 * 1.38 / 1000) :=
  C4_swimming_mean_speed 720 999 1 80 25 40 (by norm_num)

/-- C6: for every Swimming calculator with nonzero duration (the data-model
invariant), get_spent_calories returns exactly
(get_mean_speed() + 1.1) * 2.0 * weight * duration; in particular for the
inputs (720, 1, 80, 25, 40) it returns 336.0. -/
theorem C6_swimming_spent_calories (a d w lp cp : ℚ) (hd : d ≠ 0) :
    (∃ ms, Training.get_mean_speed (.swimming a d w lp cp) = .ok ms ∧
      Training.get_spent_calories (.swimming a d w lp cp) =
        .ok ((ms + 1.1) * 2 * w * d)) ∧
    Training.get_spent_calories (.swimming 720 1 80 25 40) = .ok 336 := by
  constructor
  · refine ⟨lp * cp / 1000 / d, ?_, ?_⟩ <;>
      norm_num [Training.get_mean_speed, Training.get_spent_calories,
        Training.M_IN_KM, Training.MEAN_SPEED_SHIFT, Training.SPEED_MULTIPLIER,
        Training.weight, Training.duration, pydiv, hd]
  · norm_num [Training.get_mean_speed, Training.get_spent_calories,
      Training.M_IN_KM, Training.MEAN_SPEED_SHIFT, Training.SPEED_MULTIPLIER,
      Training.weight, Training.duration, pydiv]

theorem C6_swimming_spent_calories_witness :
    (∃ ms, Training.get_mean_speed (.swimming 720 1 80 25 40) = .ok ms ∧
      Training.get_spent_calories (.swimming 720 1 80 25 40) =
        .ok ((ms + 1.1) * 2 * 80 * 1)) ∧
    Training.get_spent_calories (.swimming 720 1 80 25 40) = .ok 336 :=
  C6_swimming_spent_calories 720 1 80 25 40 (by norm_num)

/-- C7: for every code outside RUN, SWM, WLK, read_package fails with a
ValueError naming the code and listing the recognized codes comma-joined in
the order RUN, SWM, WLK; for codes in the set this error is never raised. -/
theorem C7_unknown_workout_type :
    (∀ (code : String) (data : List ℚ), code ≠ "RUN" → code ≠ "SWM" → code ≠ "WLK" →
      read_package code data = .error (.valueError
        ("Тренировки вида " ++ code ++ " не найдено. Список тренировок: "
          ++ "RUN, SWM, WLK" ++ "."))) ∧
    (∀ code : String, (code = "RUN" ∨ code = "SWM" ∨ code = "WLK") →
      ∀ (data : List ℚ) (msg : String),
        read_package code data ≠ .error (.valueError msg)) := by
  constructor
  · intro code data h1 h2 h3
    have e1 : (code == "RUN") = false := beq_eq_false_iff_ne.mpr h1
    have e2 : (code == "SWM") = false := beq_eq_false_iff_ne.mpr h2
    have e3 : (code == "WLK") = false := beq_eq_false_iff_ne.mpr h3
    simp [read_package, training_types, List.lookup, e1, e2, e3]
    rfl
  · rintro code (rfl | rfl | rfl) data msg <;>
      simpa [read_package, training_types, List.lookup] using construct_no_valueError _ data msg

theorem C7_unknown_workout_type_witness :
    read_package "XYZ" [1, 2, 3] = .error (.valueError
      ("Тренировки вида " ++ "XYZ" ++ " не найдено. Список тренировок: "
        ++ "RUN, SWM, WLK" ++ ".")) ∧
    read_package "RUN" [1, 2, 3] ≠ .error (.valueError "x") :=
  ⟨C7_unknown_workout_type.1 "XYZ" [1, 2, 3] (by decide) (by decide) (by decide),
   C7_unknown_workout_type.2 "RUN" (Or.inl rfl) [1, 2, 3] "x"⟩

/-- C8: for every recognized code, read_package fails with TypeError (the
arity-mismatch error) exactly when the count of data does not match the
variant's constructor arity (3 for Running, 4 for SportsWalking, 5 for
Swimming), and otherwise constructs the variant positionally. -/
theorem C8_arity_dispatch :
    (∀ data : List ℚ, data.length ≠ 3 → read_package "RUN" data = .error .typeError) ∧
    (∀ data : List ℚ, data.length ≠ 4 → read_package "WLK" data = .error .typeError) ∧
    (∀ data : List ℚ, data.length ≠ 5 → read_package "SWM" data = .error .typeError) ∧
    (∀ a d w : ℚ, read_package "RUN" [a, d, w] = .ok (.running a d w)) ∧
    (∀ a d w h : ℚ, read_package "WLK" [a, d, w, h] = .ok (.sportsWalking a d w h)) ∧
    (∀ a d w lp cp : ℚ, read_package "SWM" [a, d, w, lp, cp] = .ok (.swimming a d w lp cp)) := by
  refine ⟨?_, ?_, ?_, fun a d w => rfl, fun a d w h => rfl, fun a d w lp cp => rfl⟩ <;>
    · intro data hlen
      rcases data with _ | ⟨a, _ | ⟨b, _ | ⟨c, _ | ⟨e, _ | ⟨f, _ | ⟨g, rest⟩⟩⟩⟩⟩⟩ <;>
        first
          | rfl
          | simp at hlen

theorem C8_arity_dispatch_witness :
    read_package "RUN" [1, 2] = .error .typeError ∧
    read_package "WLK" [1, 2] = .error .typeError ∧
    read_package "SWM" [1, 2] = .error .typeError :=
  ⟨C8_arity_dispatch.1 [1, 2] (by decide), C8_arity_dispatch.2.1 [1, 2] (by decide),
   C8_arity_dispatch.2.2.1 [1, 2] (by decide)⟩

/-- C9: get_spent_calories on the base Training abstraction always fails
with NotImplementedError whose message names the class that failed to
implement it, while each concrete variant overrides it and can never
produce this error. -/
theorem C9_base_not_implemented :
    (∀ a d w : ℚ, Training.get_spent_calories (.base a d w) =
      .error (.notImplementedError
        "Метод обязательный_метод должен быть реализован в подклассе Training")) ∧
    (∀ (a d w : ℚ) (msg : String),
      Training.get_spent_calories (.running a d w) ≠ .error (.notImplementedError msg)) ∧
    (∀ (a d w h : ℚ) (msg : String),
      Training.get_spent_calories (.sportsWalking a d w h) ≠ .error (.notImplementedError msg)) ∧
    (∀ (a d w lp cp : ℚ) (msg : String),
      Training.get_spent_calories (.swimming a d w lp cp) ≠ .error (.notImplementedError msg)) := by
  refine ⟨fun a d w => rfl, ?_, ?_, ?_⟩
  · intro a d w msg
    rcases eq_or_ne d 0 with hd | hd <;>
      norm_num [Training.get_spent_calories, Training.get_mean_speed, Training.get_distance,
        Training.LEN_STEP, Training.M_IN_KM, Training.H_IN_M, Training.action, Training.duration,
        Training.CALORIES_MEAN_SPEED_MULTIPLIER, Training.CALORIES_MEAN_SPEED_SHIFT,
        pydiv, hd] <;> simp
  · intro a d w h msg
    rcases eq_or_ne d 0 with hd | hd <;> rcases eq_or_ne h 0 with hh | hh <;>
      norm_num [Training.get_spent_calories, Training.get_mean_speed, Training.get_distance,
        Training.LEN_STEP, Training.M_IN_KM, Training.H_IN_M, Training.SM_IN_M,
        Training.action, Training.duration, Training.KMH_IN_MS, Training.WEIGHT_MULTIPLIER,
        Training.AVER_SPEED_CALORIE, pydiv, hd, hh] <;> simp
  · intro a d w lp cp msg
    rcases eq_or_ne d 0 with hd | hd <;>
      norm_num [Training.get_spent_calories, Training.get_mean_speed,
        Training.M_IN_KM, Training.MEAN_SPEED_SHIFT, Training.SPEED_MULTIPLIER,
        Training.weight, Training.duration, pydiv, hd] <;> simp

/-- C10: get_message returns exactly the report template, each numeric
field rendered fixed-point through format3 with a dot as the decimal
separator followed by exactly three decimal digits, regardless of input
precision (an integer renders as .000). -/
theorem C10_get_message :
    (∀ m : InfoMessage, m.get_message =
      "Тип тренировки: " ++ m.training_type ++ "; " ++
      "Длительность: " ++ format3 m.duration ++ " ч.; " ++
      "Дистанция: " ++ format3 m.distance ++ " км; " ++
      "Ср. скорость: " ++ format3 m.speed ++ " км/ч; " ++
      "Потрачено ккал: " ++ format3 m.calories ++ ".") ∧
    (∀ x : ℚ, ∃ (p : String) (d1 d2 d3 : Char),
      format3 x = p ++ "." ++ String.mk [d1, d2, d3] ∧
      d1.isDigit ∧ d2.isDigit ∧ d3.isDigit ∧ (String.mk [d1, d2, d3]).length = 3) ∧
    format3 2 = "2.000" ∧ format3 (-1.5) = "-1.500" := by
  refine ⟨fun m => rfl, ?_, ?_, ?_⟩
  · intro x
    exact ⟨(if round (x * 1000) < 0 then "-" else "")
        ++ toString ((round (x * 1000)).natAbs / 1000),
      Nat.digitChar ((round (x * 1000)).natAbs % 1000 / 100 % 10),
      Nat.digitChar ((round (x * 1000)).natAbs % 1000 / 10 % 10),
      Nat.digitChar ((round (x * 1000)).natAbs % 1000 % 10),
      rfl, digitChar_isDigit _, digitChar_isDigit _, digitChar_isDigit _, rfl⟩
  · have h : round ((2 : ℚ) * 1000) = 2000 := by norm_num [round_eq]
    unfold format3
    rw [h]
    decide
  · have h : round ((-1.5 : ℚ) * 1000) = -1500 := by norm_num [round_eq]
    unfold format3
    rw [h]
    decide

/-- C1 (counterexample): with code RUN and arity-3 data whose duration
entry is 0, read_package succeeds but show_training_info raises
ZeroDivisionError, so correct code and arity alone do not guarantee the
pipeline never throws. -/
theorem C1_counterexample :
    (read_package "RUN" [15000, 0, 75]).bind Training.show_training_info =
      .error .zeroDivisionError := by
  have h : read_package "RUN" [15000, 0, 75] = .ok (.running 15000 0 75) := rfl
  rw [h]
  norm_num [Except.bind, Training.show_training_info, Training.get_distance,
    Training.get_mean_speed, Training.get_spent_calories, Training.LEN_STEP,
    Training.M_IN_KM, Training.action, Training.duration, pydiv]

/-- C1 (amended): for every pair (code, rawValues) with code in RUN, SWM,
WLK, a rawValues count matching that variant's constructor arity, a nonzero
duration entry, and, for WLK, a nonzero height entry, read_package followed
by show_training_info never throws; in the rational model of floats every
numeric field of the resulting record is then finite. -/
theorem C1_no_throw :
    (∀ a d w : ℚ, d ≠ 0 →
      ∃ m, (read_package "RUN" [a, d, w]).bind Training.show_training_info = .ok m) ∧
    (∀ a d w h : ℚ, d ≠ 0 → h ≠ 0 →
      ∃ m, (read_package "WLK" [a, d, w, h]).bind Training.show_training_info = .ok m) ∧
    (∀ a d w lp cp : ℚ, d ≠ 0 →
      ∃ m, (read_package "SWM" [a, d, w, lp, cp]).bind Training.show_training_info = .ok m) := by
  refine ⟨?_, ?_, ?_⟩
  · intro a d w hd
    have h : read_package "RUN" [a, d, w] = .ok (.running a d w) := rfl
    rw [h]
    simp only [Except.bind]
    norm_num [Training.show_training_info, Training.get_distance, Training.get_mean_speed,
      Training.get_spent_calories, Training.LEN_STEP, Training.M_IN_KM, Training.H_IN_M,
      Training.action, Training.duration, Training.class_name,
      Training.CALORIES_MEAN_SPEED_MULTIPLIER, Training.CALORIES_MEAN_SPEED_SHIFT, pydiv, hd]
  · intro a d w h hd hh
    have he : read_package "WLK" [a, d, w, h] = .ok (.sportsWalking a d w h) := rfl
    rw [he]
    simp only [Except.bind]
    norm_num [Training.show_training_info, Training.get_distance, Training.get_mean_speed,
      Training.get_spent_calories, Training.LEN_STEP, Training.M_IN_KM, Training.H_IN_M,
      Training.SM_IN_M, Training.action, Training.duration, Training.class_name,
      Training.KMH_IN_MS, Training.WEIGHT_MULTIPLIER, Training.AVER_SPEED_CALORIE,
      pydiv, hd, hh]
  · intro a d w lp cp hd
    have h : read_package "SWM" [a, d, w, lp, cp] = .ok (.swimming a d w lp cp) := rfl
    rw [h]
    simp only [Except.bind]
    norm_num [Training.show_training_info, Training.get_distance, Training.get_mean_speed,
      Training.get_spent_calories, Training.LEN_STEP, Training.M_IN_KM,
      Training.MEAN_SPEED_SHIFT, Training.SPEED_MULTIPLIER,
      Training.action, Training.duration, Training.weight, Training.class_name, pydiv, hd]

theorem C1_no_throw_witness :
    (∃ m, (read_package "RUN" [15000, 1, 75]).bind Training.show_training_info = .ok m) ∧
    (∃ m, (read_package "WLK" [9000, 1, 75, 180]).bind Training.show_training_info = .ok m) ∧
    (∃ m, (read_package "SWM" [720, 1, 80, 25, 40]).bind Training.show_training_info = .ok m) :=
  ⟨C1_no_throw.1 15000 1 75 (by norm_num),
   C1_no_throw.2.1 9000 1 75 180 (by norm_num) (by norm_num),
   C1_no_throw.2.2 720 1 80 25 40 (by norm_num)⟩
